import Mathlib

/-!
Shallow embedding of the image-editor core from `src/App.tsx` and the
manual-adjustment panel (`ManualAdjustmentPanel` / `defaultAdjustments`).

Image files are abstract identifiers; JS numbers are modelled as `ℚ` where
fractional values can occur and as `Int`/`Nat` where the code only ever
holds integers (the history cursor, pixel hotspots).
-/

/-- Abstract stand-in for a browser `File` object (an immutable image blob).
Only identity matters for the history/session logic. -/
abbrev ImageFile := Nat

/-- The tool tabs of the editor (`type Tab` in `App.tsx`). -/
inductive Tab where
  | retouch
  | crop
  | manual
  | adjust
  | filters
  | restore
deriving DecidableEq, BEq, Repr

/-- The eleven-field manual adjustment record
(`ManualAdjustments` in the adjustment panel module). -/
structure ManualAdjustments where
  temperature : ℚ
  tint : ℚ
  exposure : ℚ
  contrast : ℚ
  highlights : ℚ
  shadows : ℚ
  whites : ℚ
  blacks : ℚ
  clarity : ℚ
  vibrance : ℚ
  saturation : ℚ
deriving DecidableEq, Repr

/-- `defaultAdjustments`: the all-zero adjustment vector. -/
def defaultAdjustments : ManualAdjustments :=
  { temperature := 0, tint := 0, exposure := 0, contrast := 0,
    highlights := 0, shadows := 0, whites := 0, blacks := 0,
    clarity := 0, vibrance := 0, saturation := 0 }

/-- An in-progress crop rectangle (`Crop` from react-image-crop). -/
structure CropRect where
  x : ℚ
  y : ℚ
  width : ℚ
  height : ℚ
deriving DecidableEq, Repr

/-- A completed crop rectangle in displayed-image pixel coordinates
(`PixelCrop` from react-image-crop). -/
structure PixelCrop where
  x : ℚ
  y : ℚ
  width : ℚ
  height : ℚ
deriving DecidableEq, Repr

/-- JS `String.prototype.trim` over the character-list model of strings:
drop whitespace from both ends. -/
def trimChars (p : List Char) : List Char :=
  ((p.dropWhile Char.isWhitespace).reverse.dropWhile Char.isWhitespace).reverse

/-- The React state of the `App` component that the core logic reads and
writes: history, cursor, transient session state. -/
structure AppState where
  history : List ImageFile
  historyIndex : Int
  prompt : List Char
  isLoading : Bool
  error : Option String
  editHotspot : Option (Int × Int)
  displayHotspot : Option (ℚ × ℚ)
  activeTab : Tab
  crop : Option CropRect
  completedCrop : Option PixelCrop
  propImages : List ImageFile
  brushSize : ℚ
  brushOpacity : ℚ
  adjustments : ManualAdjustments
deriving DecidableEq, Repr

/-- The initial `useState` values of the `App` component. -/
def initState : AppState :=
  { history := [], historyIndex := -1, prompt := [], isLoading := false,
    error := none, editHotspot := none, displayHotspot := none,
    activeTab := Tab.retouch, crop := none, completedCrop := none,
    propImages := [], brushSize := 40, brushOpacity := 100,
    adjustments := defaultAdjustments }

/-- `currentImage = history[historyIndex] ?? null`. A negative index reads
`undefined` in JS, hence `none`. -/
def currentImage (s : AppState) : Option ImageFile :=
  if s.historyIndex < 0 then none else s.history.get? s.historyIndex.toNat

/-- `originalImage = history[0] ?? null`. -/
def originalImage (s : AppState) : Option ImageFile :=
  s.history.get? 0

/-- `canUndo = historyIndex > 0`. -/
def canUndo (s : AppState) : Bool :=
  decide (0 < s.historyIndex)

/-- `canRedo = historyIndex < history.length - 1`. -/
def canRedo (s : AppState) : Bool :=
  decide (s.historyIndex < (s.history.length : Int) - 1)

/-- `addImageToHistory`: slice the history to `[0..historyIndex]`, push the
new file, move the cursor to the new last index, and reset the crop
rectangles and the adjustment vector. -/
def addImageToHistory (s : AppState) (newImageFile : ImageFile) : AppState :=
  let newHistory := s.history.take (s.historyIndex + 1).toNat ++ [newImageFile]
  { s with history := newHistory,
           historyIndex := (newHistory.length : Int) - 1,
           crop := none,
           completedCrop := none,
           adjustments := defaultAdjustments }

/-- `handleClearAllPropImages`: drop every prop image. -/
def handleClearAllPropImages (s : AppState) : AppState :=
  { s with propImages := [] }

/-- `handleImageUpload`: clear prop images and the error slot, reinitialize
the history as `[file]` at cursor 0, clear hotspots and crop state, return
to the retouch tab. -/
def handleImageUpload (s : AppState) (file : ImageFile) : AppState :=
  { s with propImages := [], error := none,
           history := [file], historyIndex := 0,
           editHotspot := none, displayHotspot := none,
           activeTab := Tab.retouch,
           crop := none, completedCrop := none }

/-- Outcome of an awaited collaborator call: a new image file on success or
an error message on rejection (the `catch` argument). -/
abbrev GenResult := Except String ImageFile

/-- `handleGenerate` run to completion on a resolved collaborator promise.
Guards: a current image, a non-blank prompt and a hotspot must exist.
Success appends the new image and clears hotspots and prop images; failure
stores the message in the error slot.  `finally` clears `isLoading`. -/
def handleGenerate (s : AppState) (result : GenResult) : AppState :=
  if currentImage s = none then s
  else if trimChars s.prompt = [] ∨ s.editHotspot = none then s
  else
    match result with
    | Except.ok f =>
        let s1 := addImageToHistory { s with isLoading := true, error := none } f
        { s1 with editHotspot := none, displayHotspot := none,
                  propImages := [], isLoading := false }
    | Except.error msg =>
        { s with isLoading := false, error := some msg }

/-- `handleApplyFilter` run to completion on a resolved collaborator
promise: success appends, failure stores the message. -/
def handleApplyFilter (s : AppState) (result : GenResult) : AppState :=
  if currentImage s = none then s
  else
    match result with
    | Except.ok f =>
        { addImageToHistory { s with isLoading := true, error := none } f with
            isLoading := false }
    | Except.error msg =>
        { s with isLoading := false, error := some msg }

/-- `handleApplyAdjustment` run to completion on a resolved collaborator
promise; same shape as `handleApplyFilter`. -/
def handleApplyAdjustment (s : AppState) (result : GenResult) : AppState :=
  if currentImage s = none then s
  else
    match result with
    | Except.ok f =>
        { addImageToHistory { s with isLoading := true, error := none } f with
            isLoading := false }
    | Except.error msg =>
        { s with isLoading := false, error := some msg }

/-- A local (non-collaborator) commit — `handleApplyManualAdjustment`,
`handleApplyCrop` or `handleApplyRestore` — abstracted over the pixel data
it bakes: it appends the produced file when an image is loaded. -/
def handleApplyLocal (s : AppState) (f : ImageFile) : AppState :=
  if currentImage s = none then s else addImageToHistory s f

/-- `handleUndo = canUndo && setHistoryIndex(historyIndex - 1)`. -/
def handleUndo (s : AppState) : AppState :=
  if canUndo s then { s with historyIndex := s.historyIndex - 1 } else s

/-- `handleRedo = canRedo && setHistoryIndex(historyIndex + 1)`. -/
def handleRedo (s : AppState) : AppState :=
  if canRedo s then { s with historyIndex := s.historyIndex + 1 } else s

/-- `handleReset = history.length > 0 && setHistoryIndex(0)`. -/
def handleReset (s : AppState) : AppState :=
  if 0 < s.history.length then { s with historyIndex := 0 } else s

/-- `handleUploadNew`: clear props, empty the history, reset cursor, error
and prompt. -/
def handleUploadNew (s : AppState) : AppState :=
  { s with propImages := [], history := [], historyIndex := -1,
           error := none, prompt := [] }

/-- The tab button's `disabled={tab === 'restore' && !canUndo}`. -/
def tabDisabled (s : AppState) (t : Tab) : Bool :=
  t == Tab.restore && !canUndo s

/-- A tab is selectable when its button is not disabled. -/
def tabSelectable (s : AppState) (t : Tab) : Bool :=
  !tabDisabled s t

/-- Clicking a tab button: a no-op when the button is disabled, otherwise
`setActiveTab(tab)`. -/
def selectTab (s : AppState) (t : Tab) : AppState :=
  if tabDisabled s t then s else { s with activeTab := t }

/-- The error screen's Try Again button: `setError(null)`. -/
def dismissError (s : AppState) : AppState :=
  { s with error := none }

/-- The user-triggered events that drive the `App` component's state.
Collaborator calls carry the resolved outcome; local commits carry the
baked image file. -/
inductive Event where
  | upload (f : ImageFile)
  | uploadNew
  | undo
  | redo
  | reset
  | generate (r : GenResult)
  | applyFilter (r : GenResult)
  | applyAdjustment (r : GenResult)
  | applyLocal (f : ImageFile)
  | selectTab (t : Tab)
  | setPrompt (p : List Char)
  | setHotspots (e : Option (Int × Int)) (d : Option (ℚ × ℚ))
  | setBrushSize (n : ℚ)
  | setBrushOpacity (n : ℚ)
  | setAdjustments (a : ManualAdjustments)
  | setCrop (c : Option CropRect)
  | setCompletedCrop (c : Option PixelCrop)
  | addProps (fs : List ImageFile)
  | removeProp (i : Nat)
  | clearProps
  | dismissError

/-- One step of the app state machine: dispatch an event to its handler. -/
def applyEvent (s : AppState) : Event → AppState
  | Event.upload f => handleImageUpload s f
  | Event.uploadNew => handleUploadNew s
  | Event.undo => handleUndo s
  | Event.redo => handleRedo s
  | Event.reset => handleReset s
  | Event.generate r => handleGenerate s r
  | Event.applyFilter r => handleApplyFilter s r
  | Event.applyAdjustment r => handleApplyAdjustment s r
  | Event.applyLocal f => handleApplyLocal s f
  | Event.selectTab t => selectTab s t
  | Event.setPrompt p => { s with prompt := p }
  | Event.setHotspots e d => { s with editHotspot := e, displayHotspot := d }
  | Event.setBrushSize n => { s with brushSize := n }
  | Event.setBrushOpacity n => { s with brushOpacity := n }
  | Event.setAdjustments a => { s with adjustments := a }
  | Event.setCrop c => { s with crop := c }
  | Event.setCompletedCrop c => { s with completedCrop := c }
  | Event.addProps fs => { s with propImages := s.propImages ++ fs }
  | Event.removeProp i => { s with propImages := s.propImages.eraseIdx i }
  | Event.clearProps => handleClearAllPropImages s
  | Event.dismissError => dismissError s

/-- States reachable from the initial render by user events. -/
inductive Reachable : AppState → Prop where
  | init : Reachable initState
  | step {s : AppState} (e : Event) : Reachable s → Reachable (applyEvent s e)

/-!
## Canvas compositing model (restore tool)

Canvas pixels are modelled with premultiplied-alpha rational channels, the
representation in which the 2d-context compositing operators are linear.
-/

/-- A premultiplied-alpha pixel: each color channel is already scaled by
the alpha channel; channels are rationals in `[0,1]`. -/
structure RGBA where
  r : ℚ
  g : ℚ
  b : ℚ
  a : ℚ
deriving DecidableEq, Repr

/-- A fully transparent pixel, the content of a cleared canvas. -/
def clearPixel : RGBA := { r := 0, g := 0, b := 0, a := 0 }

/-- The `source-over` Porter-Duff operator on premultiplied pixels:
`out = src + dst * (1 - src.a)`. -/
def sourceOver (src dst : RGBA) : RGBA :=
  { r := src.r + dst.r * (1 - src.a),
    g := src.g + dst.g * (1 - src.a),
    b := src.b + dst.b * (1 - src.a),
    a := src.a + dst.a * (1 - src.a) }

/-- The `destination-in` Porter-Duff operator on premultiplied pixels:
the destination is kept, scaled by the source's alpha. -/
def destinationIn (src dst : RGBA) : RGBA :=
  { r := dst.r * src.a,
    g := dst.g * src.a,
    b := dst.b * src.a,
    a := dst.a * src.a }

/-- `redrawComposite` per pixel, over an arbitrary pixel-index type `ι`
(the two surfaces and the mask share the canvas dimensions): clear the
display canvas and draw `current` source-over; build a temporary canvas
holding `previous` clipped by the mask's alpha via `destination-in`; draw
the temporary canvas source-over the display canvas. -/
def redrawComposite {ι : Type} (current previous mask : ι → RGBA) : ι → RGBA :=
  fun i =>
    let display := sourceOver (current i) clearPixel
    let temp := destinationIn (mask i) (previous i)
    sourceOver temp display

/-!
## Coordinate mapper (`handleImageClick`)
-/

/-- JS `Math.round`: round half up. -/
def jsRound (q : ℚ) : Int := ⌊q + 1 / 2⌋

/-- The contain-fit letterbox geometry computed inside `handleImageClick`:
rendered size and offsets of the image inside its client box. -/
structure ContainGeometry where
  renderedWidth : ℚ
  renderedHeight : ℚ
  offsetX : ℚ
  offsetY : ℚ
deriving DecidableEq, Repr

/-- The letterbox computation of `handleImageClick`: pin the axis whose
aspect is larger and center the other. -/
def containGeometry (naturalWidth naturalHeight clientWidth clientHeight : ℚ) :
    ContainGeometry :=
  let naturalAspect := naturalWidth / naturalHeight
  let clientAspect := clientWidth / clientHeight
  if naturalAspect > clientAspect then
    { renderedWidth := clientWidth,
      renderedHeight := clientWidth / naturalAspect,
      offsetX := 0,
      offsetY := (clientHeight - clientWidth / naturalAspect) / 2 }
  else
    { renderedWidth := clientHeight * naturalAspect,
      renderedHeight := clientHeight,
      offsetX := (clientWidth - clientHeight * naturalAspect) / 2,
      offsetY := 0 }

/-- `handleImageClick` as a pure map from an element-relative pointer
position to the natural-pixel hotspot: `none` when the pointer falls in a
letterbox band, otherwise the rounded scaled position (the code uses the
single scale `naturalWidth / renderedWidth` for both axes). -/
def handleImageClick (naturalWidth naturalHeight clientWidth clientHeight
    px py : ℚ) : Option (Int × Int) :=
  let geo := containGeometry naturalWidth naturalHeight clientWidth clientHeight
  if px < geo.offsetX ∨ px > geo.offsetX + geo.renderedWidth ∨
     py < geo.offsetY ∨ py > geo.offsetY + geo.renderedHeight then
    none
  else
    let scale := naturalWidth / geo.renderedWidth
    some (jsRound ((px - geo.offsetX) * scale), jsRound ((py - geo.offsetY) * scale))

/-!
## Crop extraction (`handleApplyCrop`)
-/

/-- The drawing command `handleApplyCrop` issues: the output canvas
dimensions and the `drawImage` source and destination rectangles. -/
structure CropDraw where
  canvasWidth : ℚ
  canvasHeight : ℚ
  srcX : ℚ
  srcY : ℚ
  srcW : ℚ
  srcH : ℚ
  dstX : ℚ
  dstY : ℚ
  dstW : ℚ
  dstH : ℚ
deriving DecidableEq, Repr

/-- `handleApplyCrop`: scale the completed displayed-pixel rect into
natural pixels for the `drawImage` source rect, but size the output canvas
by the displayed rect itself. -/
def handleApplyCrop (naturalWidth naturalHeight displayedWidth displayedHeight : ℚ)
    (c : PixelCrop) : CropDraw :=
  let scaleX := naturalWidth / displayedWidth
  let scaleY := naturalHeight / displayedHeight
  { canvasWidth := c.width,
    canvasHeight := c.height,
    srcX := c.x * scaleX,
    srcY := c.y * scaleY,
    srcW := c.width * scaleX,
    srcH := c.height * scaleY,
    dstX := 0,
    dstY := 0,
    dstW := c.width,
    dstH := c.height }

/-!
## Manual tonal adjustment pipeline (`handleApplyManualAdjustment`)

The pipeline works on straight (non-premultiplied) channels on the `0..255`
scale, over exact rationals.  The CSS filter chain
`brightness contrast saturate` uses the filter-effects formulas; the
canvas `overlay` and `color-dodge` composite operations use the W3C
compositing blend formulas against an opaque backdrop, where a fill with
alpha `α` contributes `(1-α)·base + α·B(base, blend)` per channel.
-/

/-- A straight-alpha opaque pixel on the 0..255 channel scale. -/
structure RGB where
  r : ℚ
  g : ℚ
  b : ℚ
deriving DecidableEq, Repr

/-- Channels lie in the representable byte range. -/
def RGB.InRange (c : RGB) : Prop :=
  0 ≤ c.r ∧ c.r ≤ 255 ∧ 0 ≤ c.g ∧ c.g ≤ 255 ∧ 0 ≤ c.b ∧ c.b ≤ 255

instance (c : RGB) : Decidable c.InRange := by
  unfold RGB.InRange; infer_instance

/-- Clamp a channel to the byte range. -/
def clamp255 (q : ℚ) : ℚ := max 0 (min 255 q)

/-- CSS `brightness(k)`: multiply each channel by `k`. -/
def brightnessFilter (k : ℚ) (c : RGB) : RGB :=
  { r := clamp255 (c.r * k), g := clamp255 (c.g * k), b := clamp255 (c.b * k) }

/-- CSS `contrast(k)`: scale each channel about the midpoint `255/2`. -/
def contrastFilter (k : ℚ) (c : RGB) : RGB :=
  { r := clamp255 ((c.r - 255 / 2) * k + 255 / 2),
    g := clamp255 ((c.g - 255 / 2) * k + 255 / 2),
    b := clamp255 ((c.b - 255 / 2) * k + 255 / 2) }

/-- CSS `saturate(k)`: interpolate each channel between the pixel's
luminance (filter-effects coefficients 0.213/0.715/0.072) and itself. -/
def saturateFilter (k : ℚ) (c : RGB) : RGB :=
  let lum := (213 * c.r + 715 * c.g + 72 * c.b) / 1000
  { r := clamp255 (lum + (c.r - lum) * k),
    g := clamp255 (lum + (c.g - lum) * k),
    b := clamp255 (lum + (c.b - lum) * k) }

/-- The per-channel `overlay` blend formula (hard-light with the operands
exchanged).  On the 0..255 scale the midpoint test `Cb <= 0.5` reads
`base <= 255/2`. -/
def overlayChannel (cb cs : ℚ) : ℚ :=
  if cb ≤ 255 / 2 then 2 * cb * cs / 255
  else 255 - 2 * (255 - cb) * (255 - cs) / 255

/-- The per-channel `color-dodge` blend formula:
`base / (1 - blend/255)` clamped to 255, and 255 when the blend channel is
already 255. -/
def dodgeChannel (cb cs : ℚ) : ℚ :=
  if cs = 255 then 255 else min 255 (cb * 255 / (255 - cs))

/-- Composite an opaque fill of color `tint` and alpha `alpha` over the
opaque base pixel `c` under the `overlay` blend mode:
`(1-alpha)·base + alpha·overlay(base, tint)` per channel. -/
def blendOverlay (alpha : ℚ) (tint c : RGB) : RGB :=
  { r := (1 - alpha) * c.r + alpha * overlayChannel c.r tint.r,
    g := (1 - alpha) * c.g + alpha * overlayChannel c.g tint.g,
    b := (1 - alpha) * c.b + alpha * overlayChannel c.b tint.b }

/-- Composite an opaque fill of color `tint` and alpha `alpha` over the
opaque base pixel `c` under the `color-dodge` blend mode. -/
def blendDodge (alpha : ℚ) (tint c : RGB) : RGB :=
  { r := (1 - alpha) * c.r + alpha * dodgeChannel c.r tint.r,
    g := (1 - alpha) * c.g + alpha * dodgeChannel c.g tint.g,
    b := (1 - alpha) * c.b + alpha * dodgeChannel c.b tint.b }

/-- The temperature step: a positive temperature overlays orange
`(255,165,0)` at alpha `temperature/200`, a negative one overlays blue
`(0,100,255)` at alpha `-temperature/200`. -/
def temperatureStep (temperature : ℚ) (c : RGB) : RGB :=
  if 0 < temperature then
    blendOverlay (temperature / 200) { r := 255, g := 165, b := 0 } c
  else if temperature < 0 then
    blendOverlay (-temperature / 200) { r := 0, g := 100, b := 255 } c
  else c

/-- The tint step: a positive tint color-dodges magenta `(255,0,255)` at
alpha `tint/400`, a negative one color-dodges green `(0,255,0)` at alpha
`-tint/400`. -/
def tintStep (tint : ℚ) (c : RGB) : RGB :=
  if 0 < tint then
    blendDodge (tint / 400) { r := 255, g := 0, b := 255 } c
  else if tint < 0 then
    blendDodge (-tint / 400) { r := 0, g := 255, b := 0 } c
  else c

/-- The full per-pixel pipeline of `handleApplyManualAdjustment`:
brightness from exposure, contrast, saturation, then the temperature
overlay and the tint color-dodge.  Only these five fields reach the baked
pipeline. -/
def applyManualAdjustmentPixel (adj : ManualAdjustments) (c : RGB) : RGB :=
  tintStep adj.tint
    (temperatureStep adj.temperature
      (saturateFilter (1 + adj.saturation / 100)
        (contrastFilter (1 + adj.contrast / 100)
          (brightnessFilter (1 + adj.exposure / 100) c))))

/-- The pipeline lifted pointwise to an image (a pixel field over an
arbitrary index type). -/
def applyManualAdjustmentImage {ι : Type} (adj : ManualAdjustments)
    (img : ι → RGB) : ι → RGB :=
  fun i => applyManualAdjustmentPixel adj (img i)

attribute [ext] RGBA
attribute [ext] RGB

/-- A concrete three-snapshot history `[A,B,C]` with the cursor on `C`
(files numbered 0,1,2). -/
def historyABC : AppState :=
  { initState with history := [0, 1, 2], historyIndex := 2 }

/-- C1: appending with the cursor at `i` truncates the history to
`[0..i]`, pushes the new snapshot and moves the cursor to the new last
index; concretely, from `[A,B,C]` at cursor 2, `undo` moves the cursor to
1 and appending `D` yields `[A,B,D]` at cursor 2, with `C` gone. -/
theorem C1_append_truncates (s : AppState) (f : ImageFile)
    (h0 : 0 ≤ s.historyIndex) (h1 : s.historyIndex < (s.history.length : Int)) :
    (addImageToHistory s f).history
        = s.history.take (s.historyIndex.toNat + 1) ++ [f]
    ∧ (addImageToHistory s f).historyIndex = s.historyIndex + 1
    ∧ (addImageToHistory s f).historyIndex
        = ((addImageToHistory s f).history.length : Int) - 1
    ∧ (handleUndo historyABC).historyIndex = 1
    ∧ (addImageToHistory (handleUndo historyABC) 3).history = [0, 1, 3]
    ∧ (addImageToHistory (handleUndo historyABC) 3).historyIndex = 2
    ∧ 2 ∉ (addImageToHistory (handleUndo historyABC) 3).history := by
  have htn : (s.historyIndex + 1).toNat = s.historyIndex.toNat + 1 := by omega
  refine ⟨by simp [addImageToHistory, htn], ?_, ?_, by decide, by decide,
    by decide, by decide⟩
  · simp only [addImageToHistory, List.length_append, List.length_take,
      List.length_cons, List.length_nil]
    omega
  · simp only [addImageToHistory]

/-- Witness for C1 at the concrete history `[A,B,C]` and a fresh file. -/
theorem C1_append_truncates_witness :
    (addImageToHistory historyABC 9).history
      = historyABC.history.take (historyABC.historyIndex.toNat + 1) ++ [9] :=
  (C1_append_truncates historyABC 9 (by decide) (by decide)).1

/-- C10: appending a snapshot also resets the adjustment vector to the
all-zero default and clears both crop rectangles, while leaving the
prompt, the brush parameters and the active tab unchanged. -/
theorem C10_append_resets_session (s : AppState) (f : ImageFile) :
    (addImageToHistory s f).adjustments = defaultAdjustments
    ∧ (addImageToHistory s f).crop = none
    ∧ (addImageToHistory s f).completedCrop = none
    ∧ (addImageToHistory s f).prompt = s.prompt
    ∧ (addImageToHistory s f).brushSize = s.brushSize
    ∧ (addImageToHistory s f).brushOpacity = s.brushOpacity
    ∧ (addImageToHistory s f).activeTab = s.activeTab
    ∧ (addImageToHistory s f).history
        = s.history.take (s.historyIndex + 1).toNat ++ [f]
    ∧ (addImageToHistory s f).historyIndex
        = ((addImageToHistory s f).history.length : Int) - 1 :=
  ⟨rfl, rfl, rfl, rfl, rfl, rfl, rfl, rfl, rfl⟩

/-- A concrete session with one loaded image, a typed prompt, a hotspot
and one prop image attached. -/
def sessionWithProp : AppState :=
  { initState with history := [5], historyIndex := 0, prompt := ['h', 'i'],
                   editHotspot := some (1, 2), propImages := [7] }

/-- C5: when a collaborator request fails, each handler leaves the history
sequence and the cursor untouched, stores the caught message in the error
slot, and the error is dismissable. -/
theorem C5_failure_preserves_history (s : AppState) (msg : String)
    (img : ImageFile) (hcur : currentImage s = some img)
    (hprompt : ¬trimChars s.prompt = []) (hspot : ¬s.editHotspot = none) :
    ((handleGenerate s (Except.error msg)).history = s.history
      ∧ (handleGenerate s (Except.error msg)).historyIndex = s.historyIndex
      ∧ (handleGenerate s (Except.error msg)).error = some msg
      ∧ (dismissError (handleGenerate s (Except.error msg))).error = none)
    ∧ ((handleApplyFilter s (Except.error msg)).history = s.history
      ∧ (handleApplyFilter s (Except.error msg)).historyIndex = s.historyIndex
      ∧ (handleApplyFilter s (Except.error msg)).error = some msg
      ∧ (dismissError (handleApplyFilter s (Except.error msg))).error = none)
    ∧ ((handleApplyAdjustment s (Except.error msg)).history = s.history
      ∧ (handleApplyAdjustment s (Except.error msg)).historyIndex = s.historyIndex
      ∧ (handleApplyAdjustment s (Except.error msg)).error = some msg
      ∧ (dismissError (handleApplyAdjustment s (Except.error msg))).error = none) := by
  have hnone : ¬currentImage s = none := by simp [hcur]
  simp [handleGenerate, handleApplyFilter, handleApplyAdjustment,
    dismissError, hnone, hprompt, hspot]

/-- Witness for C5 at a concrete loaded session and a network error. -/
theorem C5_failure_preserves_history_witness :
    (handleGenerate sessionWithProp (Except.error "network error")).error
      = some "network error" :=
  (C5_failure_preserves_history sessionWithProp "network error" 5
    (by decide) (by decide) (by decide)).1.2.2.1

/-- C4 counterexample: a failed localized-edit request does NOT clear the
attached prop images — the session that entered `handleGenerate` with one
prop image still holds it after the catch branch runs. -/
theorem C4_counterexample :
    (handleGenerate sessionWithProp (Except.error "network error")).propImages = [7]
    ∧ ([7] : List ImageFile) ≠ [] := by
  decide

/-- C4 amended: prop images are cleared when the localized-edit request
resolves successfully and when a new base image is loaded, but a failed
request leaves them attached (available for a retry). -/
theorem C4_prop_images_cleared (s : AppState) (fNew fUpload : ImageFile)
    (msg : String) (img : ImageFile) (hcur : currentImage s = some img)
    (hprompt : ¬trimChars s.prompt = []) (hspot : ¬s.editHotspot = none) :
    (handleGenerate s (Except.ok fNew)).propImages = []
    ∧ (handleGenerate s (Except.error msg)).propImages = s.propImages
    ∧ (handleImageUpload s fUpload).propImages = [] := by
  have hnone : ¬currentImage s = none := by simp [hcur]
  simp [handleGenerate, handleImageUpload, hnone, hprompt, hspot]

/-- Witness for the amended C4 at the concrete session with one prop. -/
theorem C4_prop_images_cleared_witness :
    (handleGenerate sessionWithProp (Except.ok 8)).propImages = [] :=
  (C4_prop_images_cleared sessionWithProp 8 9 "network error" 5
    (by decide) (by decide) (by decide)).1

lemma addImageToHistory_index_lt (s : AppState) (f : ImageFile) :
    (addImageToHistory s f).historyIndex
      < ((addImageToHistory s f).history.length : Int) := by
  simp only [addImageToHistory, List.length_append, List.length_cons,
    List.length_nil]
  omega

lemma applyEvent_index_lt {s : AppState} (e : Event)
    (h : s.historyIndex < (s.history.length : Int)) :
    (applyEvent s e).historyIndex < ((applyEvent s e).history.length : Int) := by
  cases e with
  | upload f => simp [applyEvent, handleImageUpload]
  | uploadNew => simp [applyEvent, handleUploadNew]
  | undo =>
      simp only [applyEvent, handleUndo, canUndo]
      split_ifs <;> simp_all <;> omega
  | redo =>
      simp only [applyEvent, handleRedo, canRedo]
      split_ifs with hc
      · simp only [decide_eq_true_eq] at hc; simpa using by omega
      · exact h
  | reset =>
      simp only [applyEvent, handleReset]
      split_ifs with hc
      · simpa using by omega
      · exact h
  | generate r =>
      simp only [applyEvent, handleGenerate]
      split_ifs with h1 h2
      · exact h
      · exact h
      · cases r with
        | ok f => simpa using addImageToHistory_index_lt _ f
        | error msg => exact h
  | applyFilter r =>
      simp only [applyEvent, handleApplyFilter]
      split_ifs with h1
      · exact h
      · cases r with
        | ok f => simpa using addImageToHistory_index_lt _ f
        | error msg => exact h
  | applyAdjustment r =>
      simp only [applyEvent, handleApplyAdjustment]
      split_ifs with h1
      · exact h
      · cases r with
        | ok f => simpa using addImageToHistory_index_lt _ f
        | error msg => exact h
  | applyLocal f =>
      simp only [applyEvent, handleApplyLocal]
      split_ifs with h1
      · exact h
      · exact addImageToHistory_index_lt _ f
  | selectTab t =>
      simp only [applyEvent, selectTab]
      split_ifs <;> exact h
  | setPrompt p => exact h
  | setHotspots e d => exact h
  | setBrushSize n => exact h
  | setBrushOpacity n => exact h
  | setAdjustments a => exact h
  | setCrop c => exact h
  | setCompletedCrop c => exact h
  | addProps fs => exact h
  | removeProp i => exact h
  | clearProps => exact h
  | dismissError => exact h

/-- In every reachable state the cursor stays below the history length. -/
lemma reachable_index_lt {s : AppState} (h : Reachable s) :
    s.historyIndex < (s.history.length : Int) := by
  induction h with
  | init => simp [initState]
  | step e _ ih => exact applyEvent_index_lt e ih

/-- The reachable state obtained by uploading an image, applying one
successful filter edit, then undoing back to the original. -/
def undoneEditState : AppState :=
  applyEvent
    (applyEvent (applyEvent initState (Event.upload 0))
      (Event.applyFilter (Except.ok 1)))
    Event.undo

/-- C7 counterexample: a reachable state whose history holds an edit
beyond the original (length 2), yet the restore tab is not selectable,
because the cursor sits back on the original snapshot. -/
theorem C7_counterexample :
    Reachable undoneEditState
    ∧ 1 < undoneEditState.history.length
    ∧ tabSelectable undoneEditState Tab.restore = false := by
  refine ⟨?_, by decide, by decide⟩
  exact Reachable.step Event.undo
    (Reachable.step (Event.applyFilter (Except.ok 1))
      (Reachable.step (Event.upload 0) Reachable.init))

/-- C7 amended: in every reachable state the restore tab is selectable
exactly when undo is available (the cursor is past the original); a
selectable restore tab implies an edit exists in the history, and with at
most the original snapshot the restore tab is never selectable — but an
edit merely existing beyond the cursor does not make it selectable. -/
theorem C7_restore_gating (s : AppState) (h : Reachable s) :
    tabSelectable s Tab.restore = canUndo s
    ∧ (canUndo s = true → 1 < s.history.length)
    ∧ (s.history.length ≤ 1 → tabSelectable s Tab.restore = false) := by
  have hinv := reachable_index_lt h
  have h1 : tabSelectable s Tab.restore = canUndo s := by
    cases hcu : canUndo s <;> simp [tabSelectable, tabDisabled, hcu] <;> decide
  refine ⟨h1, ?_, ?_⟩
  · intro hc
    simp only [canUndo, decide_eq_true_eq] at hc
    omega
  · intro hlen
    rw [h1]
    simp only [canUndo, decide_eq_false_iff_not]
    omega

/-- Witness for the amended C7 at the initial (empty-history) state. -/
theorem C7_restore_gating_witness :
    tabSelectable initState Tab.restore = canUndo initState :=
  (C7_restore_gating initState Reachable.init).1

/-- C6: for a 1000×500 image contain-fit in a 400×400 box the rendered
image is 400×200 with vertical offset 100; the box-relative pointer
(200,100) maps to natural pixel (500,0) and the pointer (0,0) lands in
the letterbox band and is rejected. -/
theorem C6_coordinate_mapper :
    containGeometry 1000 500 400 400
        = { renderedWidth := 400, renderedHeight := 200,
            offsetX := 0, offsetY := 100 }
    ∧ handleImageClick 1000 500 400 400 200 100 = some (500, 0)
    ∧ handleImageClick 1000 500 400 400 0 0 = none := by
  have hgeo : containGeometry 1000 500 400 400
      = { renderedWidth := 400, renderedHeight := 200,
          offsetX := 0, offsetY := 100 } := by
    rw [containGeometry]
    norm_num
  refine ⟨hgeo, ?_, ?_⟩
  · simp only [handleImageClick, hgeo]
    norm_num [jsRound, Int.floor_eq_iff]
  · simp only [handleImageClick, hgeo]
    norm_num

/-- C2 counterexample: extracting rect (10,10,100,50) from a 500×500
display of a 1000×1000 natural image sizes the output canvas 100×50 — the
displayed rect — not the 200×100 natural-pixel sub-rectangle the claim
describes. -/
theorem C2_counterexample :
    (handleApplyCrop 1000 1000 500 500
        { x := 10, y := 10, width := 100, height := 50 }).canvasWidth = 100
    ∧ (handleApplyCrop 1000 1000 500 500
        { x := 10, y := 10, width := 100, height := 50 }).canvasHeight = 50
    ∧ ¬((handleApplyCrop 1000 1000 500 500
          { x := 10, y := 10, width := 100, height := 50 }).canvasWidth = 200
        ∧ (handleApplyCrop 1000 1000 500 500
            { x := 10, y := 10, width := 100, height := 50 }).canvasHeight = 100) := by
  refine ⟨rfl, rfl, ?_⟩
  rintro ⟨h, -⟩
  simp only [handleApplyCrop] at h
  norm_num at h

/-- C2 amended: crop extraction samples the natural-pixel sub-rectangle
`(x·sx, y·sy, w·sx, h·sy)` with `sx = naturalW/displayedW`,
`sy = naturalH/displayedH`, but draws it into an output buffer sized by
the displayed rect `(w, h)`; the concrete example yields a 100×50 output
sampled from natural-pixel rect (20,20,200,100). -/
theorem C2_crop_extraction (naturalWidth naturalHeight displayedWidth
    displayedHeight : ℚ) (c : PixelCrop) :
    (handleApplyCrop naturalWidth naturalHeight displayedWidth displayedHeight
        c).canvasWidth = c.width
    ∧ (handleApplyCrop naturalWidth naturalHeight displayedWidth displayedHeight
        c).canvasHeight = c.height
    ∧ (handleApplyCrop naturalWidth naturalHeight displayedWidth displayedHeight
        c).srcX = c.x * (naturalWidth / displayedWidth)
    ∧ (handleApplyCrop naturalWidth naturalHeight displayedWidth displayedHeight
        c).srcY = c.y * (naturalHeight / displayedHeight)
    ∧ (handleApplyCrop naturalWidth naturalHeight displayedWidth displayedHeight
        c).srcW = c.width * (naturalWidth / displayedWidth)
    ∧ (handleApplyCrop naturalWidth naturalHeight displayedWidth displayedHeight
        c).srcH = c.height * (naturalHeight / displayedHeight)
    ∧ handleApplyCrop 1000 1000 500 500 { x := 10, y := 10, width := 100, height := 50 }
        = { canvasWidth := 100, canvasHeight := 50,
            srcX := 20, srcY := 20, srcW := 200, srcH := 100,
            dstX := 0, dstY := 0, dstW := 100, dstH := 50 } := by
  refine ⟨rfl, rfl, rfl, rfl, rfl, rfl, ?_⟩
  simp only [handleApplyCrop, CropDraw.mk.injEq]
  norm_num

/-- C3: for opaque current and previous surfaces of shared dimensions,
`redrawComposite` is at each pixel the linear interpolation of previous
over current weighted by the mask's alpha; an all-transparent mask
reproduces the current surface exactly and an all-opaque mask reproduces
the previous surface exactly. -/
theorem C3_recompose_lerp {ι : Type} (current previous mask : ι → RGBA)
    (hcur : ∀ i, (current i).a = 1) (hprev : ∀ i, (previous i).a = 1) :
    (∀ i, redrawComposite current previous mask i
        = { r := (mask i).a * (previous i).r + (1 - (mask i).a) * (current i).r,
            g := (mask i).a * (previous i).g + (1 - (mask i).a) * (current i).g,
            b := (mask i).a * (previous i).b + (1 - (mask i).a) * (current i).b,
            a := 1 })
    ∧ ((∀ i, (mask i).a = 0) →
        ∀ i, redrawComposite current previous mask i = current i)
    ∧ ((∀ i, (mask i).a = 1) →
        ∀ i, redrawComposite current previous mask i = previous i) := by
  refine ⟨fun i => ?_, fun hm i => ?_, fun hm i => ?_⟩
  · ext <;>
      (simp only [redrawComposite, sourceOver, destinationIn, clearPixel]
       rw [hprev i, hcur i]; ring)
  · ext <;>
      (simp only [redrawComposite, sourceOver, destinationIn, clearPixel]
       rw [hm i]; ring)
  · ext <;>
      (simp only [redrawComposite, sourceOver, destinationIn, clearPixel]
       rw [hm i, hprev i]; ring)

/-- Witness for C3 at a one-pixel image: red current, green previous,
half-opacity mask. -/
theorem C3_recompose_lerp_witness :
    redrawComposite (fun _ : Unit => { r := 1, g := 0, b := 0, a := 1 })
        (fun _ => { r := 0, g := 1, b := 0, a := 1 })
        (fun _ => { r := 1 / 2, g := 1 / 2, b := 1 / 2, a := 1 / 2 }) ()
      = { r := (1 / 2) * 0 + (1 - 1 / 2) * 1,
          g := (1 / 2) * 1 + (1 - 1 / 2) * 0,
          b := (1 / 2) * 0 + (1 - 1 / 2) * 0, a := 1 } :=
  (C3_recompose_lerp (fun _ : Unit => { r := 1, g := 0, b := 0, a := 1 })
    (fun _ => { r := 0, g := 1, b := 0, a := 1 })
    (fun _ => { r := 1 / 2, g := 1 / 2, b := 1 / 2, a := 1 / 2 })
    (fun _ => rfl) (fun _ => rfl)).1 ()

lemma clamp255_of_mem (q : ℚ) (h0 : 0 ≤ q) (h255 : q ≤ 255) : clamp255 q = q := by
  unfold clamp255
  rw [min_eq_right h255, max_eq_right h0]

lemma applyManualAdjustmentPixel_default (c : RGB) (h : c.InRange) :
    applyManualAdjustmentPixel defaultAdjustments c = c := by
  obtain ⟨h1, h2, h3, h4, h5, h6⟩ := h
  have hb : brightnessFilter 1 c = c := by
    ext <;> simp only [brightnessFilter, mul_one] <;>
      [exact clamp255_of_mem _ h1 h2; exact clamp255_of_mem _ h3 h4;
       exact clamp255_of_mem _ h5 h6]
  have hc : contrastFilter 1 c = c := by
    ext <;> simp only [contrastFilter, mul_one, sub_add_cancel] <;>
      [exact clamp255_of_mem _ h1 h2; exact clamp255_of_mem _ h3 h4;
       exact clamp255_of_mem _ h5 h6]
  have hs : saturateFilter 1 c = c := by
    ext <;> simp only [saturateFilter, mul_one, add_sub_cancel] <;>
      [exact clamp255_of_mem _ h1 h2; exact clamp255_of_mem _ h3 h4;
       exact clamp255_of_mem _ h5 h6]
  have ht : temperatureStep 0 c = c := by
    simp [temperatureStep]
  have hti : tintStep 0 c = c := by
    simp [tintStep]
  simp only [applyManualAdjustmentPixel, defaultAdjustments]
  norm_num [hb, hc, hs, ht, hti]

/-- C8: the all-zero adjustment vector is a pixel-identical no-op on any
in-range image, and applying it any positive number of times equals
applying it once. -/
theorem C8_zero_vector_noop {ι : Type} (img : ι → RGB)
    (h : ∀ i, (img i).InRange) :
    applyManualAdjustmentImage defaultAdjustments img = img
    ∧ ∀ n : ℕ,
        (applyManualAdjustmentImage defaultAdjustments (ι := ι))^[n + 1] img
          = applyManualAdjustmentImage defaultAdjustments img := by
  have hid : applyManualAdjustmentImage defaultAdjustments img = img :=
    funext fun i => applyManualAdjustmentPixel_default _ (h i)
  refine ⟨hid, fun n => ?_⟩
  induction n with
  | zero => simp
  | succ n ih =>
      rw [Function.iterate_succ_apply, hid, ih, hid]

/-- Witness for C8 at a constant one-pixel image. -/
theorem C8_zero_vector_noop_witness :
    applyManualAdjustmentImage defaultAdjustments
        (fun _ : Unit => ({ r := 10, g := 20, b := 30 } : RGB))
      = fun _ : Unit => ({ r := 10, g := 20, b := 30 } : RGB) :=
  (C8_zero_vector_noop (fun _ : Unit => ({ r := 10, g := 20, b := 30 } : RGB))
    (fun _ => by norm_num [RGB.InRange])).1

/-- C9: after exposure, contrast and saturation the pipeline overlay-blends
orange (255,165,0) at alpha t/200 for positive temperature t and blue
(0,100,255) at alpha -t/200 for negative temperature, where the
per-channel overlay result for integer base values is 2·base·blend/255
when base ≤ 127 and 255 − 2·(255−base)·(255−blend)/255 otherwise;
concretely, base gray 128 at temperature 100 (alpha 1/2 against orange)
yields channels (383/2, 4987/34, 129/2). -/
theorem C9_temperature_overlay (t : ℚ) (c : RGB) (cb cs : ℕ)
    (ht : 0 < t) (hcb : cb ≤ 255) :
    temperatureStep t c = blendOverlay (t / 200) { r := 255, g := 165, b := 0 } c
    ∧ temperatureStep (-t) c
        = blendOverlay (t / 200) { r := 0, g := 100, b := 255 } c
    ∧ overlayChannel (cb : ℚ) (cs : ℚ)
        = (if cb ≤ 127 then 2 * (cb : ℚ) * (cs : ℚ) / 255
           else 255 - 2 * (255 - (cb : ℚ)) * (255 - (cs : ℚ)) / 255)
    ∧ (∀ (adj : ManualAdjustments) (p : RGB), applyManualAdjustmentPixel adj p
        = tintStep adj.tint (temperatureStep adj.temperature
            (saturateFilter (1 + adj.saturation / 100)
              (contrastFilter (1 + adj.contrast / 100)
                (brightnessFilter (1 + adj.exposure / 100) p)))))
    ∧ temperatureStep 100 { r := 128, g := 128, b := 128 }
        = { r := 383 / 2, g := 4987 / 34, b := 129 / 2 } := by
  refine ⟨?_, ?_, ?_, fun adj p => rfl, ?_⟩
  · simp only [temperatureStep]
    rw [if_pos ht]
  · simp only [temperatureStep]
    rw [if_neg (by linarith), if_pos (by linarith : -t < 0), neg_neg]
  · by_cases hsmall : cb ≤ 127
    · have hq : (cb : ℚ) ≤ 255 / 2 := by
        have : (cb : ℚ) ≤ 127 := by exact_mod_cast hsmall
        linarith
      rw [overlayChannel, if_pos hq, if_pos hsmall]
    · have hge : (128 : ℚ) ≤ (cb : ℚ) := by
        have : 128 ≤ cb := by omega
        exact_mod_cast this
      have hq : ¬(cb : ℚ) ≤ 255 / 2 := by linarith
      rw [overlayChannel, if_neg hq, if_neg hsmall]
  · simp only [temperatureStep, blendOverlay, overlayChannel]
    norm_num [RGB.mk.injEq]

/-- Witness for C9 at temperature 100 on mid gray 128 and the green
channel pair (base 128, blend 165). -/
theorem C9_temperature_overlay_witness :
    temperatureStep 100 { r := 128, g := 128, b := 128 }
      = { r := 383 / 2, g := 4987 / 34, b := 129 / 2 } :=
  (C9_temperature_overlay 100 { r := 128, g := 128, b := 128 } 128 165
    (by norm_num) (by norm_num)).2.2.2.2
